import Mathlib

/-!
Verification development for the AgenticSellerPOC sales-pipeline repository.

Shallow embedding of `state.py`, the agent `process` methods in
`agents/*.py`, the dispatcher logic of `orchestrator.py`
(`_mcp_decision_node`, `_route_from_mcp`, `_check_for_conversion`,
`run_conversation`, `continue_conversation`, `_crm_node`) and the
in-memory session store of `memory.py`.

Modelling conventions:
* Python dict values are mirrored by structures whose `Option` fields stand
  for keys that may be absent or hold `None`.
* The completion service is an oracle: each agent's `process` takes the
  (already parsed) completion response as an argument; `none` stands for a
  response on which `json.loads` raises `JSONDecodeError`.  The raw response
  text is passed separately where the code uses `response.content`.
* Message timestamps (`datetime.now()`) are wall-clock effects and are not
  modelled; everything else of a message dict is.
* `str.lower()` is modelled by ASCII lowering (`Char.toLower`); the regex
  word character class is approximated by ASCII alphanumerics, underscore
  and the French accented letters that occur in this code base.
* Python exceptions that escape a `process` call are modelled by an
  explicit error value (`PyError`).
-/

/-- Values that occur in a message's `metadata` dict. -/
inductive MetaV where
  | str (v : String)
  | boolv (v : Bool)
  | intv (v : Int)
  | offerv (offre : Option String) (tarif : Option Int) (duree : Option String)
      (contenu : List String) (remise : Int) (prochaine_etape : Option String)
      (engagement : Option String) (conditions : List String)
deriving DecidableEq, Repr

/-- One entry of `state["messages"]` (a `Message.to_dict()` result, timestamp omitted). -/
structure Msg where
  role : String
  content : String
  metadata : List (String × MetaV)
deriving DecidableEq, Repr

/-- An offer dict as built by `SellerAgent.process` (keys `offre`, `tarif`,
`duree`, `contenu`, `remise`, `prochaine_etape`, `engagement`, `conditions`). -/
structure Offer where
  offre : Option String
  tarif : Option Int
  duree : Option String
  contenu : List String
  remise : Int
  prochaine_etape : Option String
  engagement : Option String
  conditions : List String
deriving DecidableEq, Repr

/-- The `lead_info` dict.  The first ten fields are the keys of
`LeadInfo().to_dict()`; `maturite_ia` and `offre_recommandee` are keys that
only the classifier adds, so `none` there stands for an absent key. -/
structure LeadInfo where
  name : Option String := none
  company : Option String := none
  email : Option String := none
  phone : Option String := none
  sector : Option String := none
  company_size : Option String := none
  budget : Option Int := none
  decision_maker : Bool := false
  pain_points : List String := []
  interests : List String := []
  maturite_ia : Option String := none
  offre_recommandee : Option String := none
deriving DecidableEq, Repr

/-- The `SalesState` TypedDict of `state.py`. -/
structure SalesState where
  messages : List Msg
  current_message : String
  lead_info : LeadInfo
  lead_type : Option String
  lead_score : Int
  current_agent : String
  last_agent : Option String
  offers_made : List Offer
  current_offer : Option Offer
  objections : List String
  objections_handled : List String
  negotiation_count : Nat
  qualified : Bool
  converted : Bool
  escalated : Bool
  closed : Bool
  session_id : String
  context : String
  next_action : Option String
  crm_synced : Bool
  key_insights : List String
  sentiment : String
deriving DecidableEq, Repr

/-- `create_initial_state` of `state.py`. -/
def create_initial_state (initial_message : String) (session_id : String) : SalesState :=
  { messages := []
    current_message := initial_message
    lead_info := {}
    lead_type := none
    lead_score := 0
    current_agent := "start"
    last_agent := none
    offers_made := []
    current_offer := none
    objections := []
    objections_handled := []
    negotiation_count := 0
    qualified := false
    converted := false
    escalated := false
    closed := false
    session_id := session_id
    context := "initial"
    next_action := none
    crm_synced := false
    key_insights := []
    sentiment := "neutral" }

/-- `add_message` of `state.py` (metadata defaulted to the empty dict). -/
def add_message (s : SalesState) (role : String) (content : String) : SalesState :=
  { s with messages := s.messages ++ [{ role := role, content := content, metadata := [] }] }

/-- Python truthiness of an optional string (`None` and `""` are falsy). -/
def truthyOptStr : Option String → Bool
  | none => false
  | some t => t ≠ ""

/-- Python truthiness of an optional bool (`dict.get` with default `None`). -/
def truthyOptBool : Option Bool → Bool
  | none => false
  | some b => b

/-! ## Conversion detection (`SalesOrchestrator._check_for_conversion`)

The Python code lowercases the latest prospect message and runs
`re.search(keyword, message)` for each keyword.  All keywords are literal
strings — hence plain substring search — except the raw pattern
`\bok\b`, which is the token "ok" guarded by word boundaries. -/

/-- Approximation of the regex word-character class `\w` for this code base:
ASCII alphanumerics, underscore, and the French accented letters appearing
in the repository's text. -/
def isWordChar (c : Char) : Bool :=
  c.isAlphanum || c = '_' || "àâäéèêëîïôöùûüçœ".toList.contains c

/-- Whether `needle` is a prefix of `hay`, returning the remaining suffix. -/
def dropPrefixQ : List Char → List Char → Option (List Char)
  | [], hay => some hay
  | _ :: _, [] => none
  | a :: as, b :: bs => if a = b then dropPrefixQ as bs else none

/-- Substring search on character lists (semantics of `re.search` for a
pattern with no metacharacters). -/
def listIsInfix : List Char → List Char → Bool
  | n, [] => n.isEmpty
  | n, c :: rest => (dropPrefixQ n (c :: rest)).isSome || listIsInfix n rest

/-- Word boundary before the match: start of string or a non-word character. -/
def boundaryBefore : Option Char → Bool
  | none => true
  | some c => !isWordChar c

/-- Word boundary after the match: end of string or a non-word character. -/
def boundaryAfter : List Char → Bool
  | [] => true
  | c :: _ => !isWordChar c

/-- Whether `needle` matches at the current position with word boundaries on
both sides. -/
def wordMatchHere (needle : List Char) (prev : Option Char) (hay : List Char) : Bool :=
  boundaryBefore prev &&
    match dropPrefixQ needle hay with
    | some rest => boundaryAfter rest
    | none => false

/-- Scan of `hay` for a word-bounded occurrence of `needle`; `prev` is the
character immediately before the current position. -/
def occursAsWordAux (needle : List Char) (prev : Option Char) : List Char → Bool
  | [] => wordMatchHere needle prev []
  | c :: rest => wordMatchHere needle prev (c :: rest) || occursAsWordAux needle (some c) rest

/-- Semantics of `re.search` for a pattern of the form `\b<literal>\b`. -/
def occursAsWord (needle hay : List Char) : Bool :=
  occursAsWordAux needle none hay

/-- One entry of the `conversion_keywords` list: either a literal pattern
(substring search) or the word-bounded pattern `\bok\b`. -/
inductive ConvKeyword where
  | plain (s : String)
  | okWord
deriving DecidableEq, Repr

/-- The `conversion_keywords` list of `_check_for_conversion`, in source order. -/
def conversion_keywords : List ConvKeyword :=
  [.plain "yes", .plain "sure", .okWord, .plain "okay", .plain "let's do it",
   .plain "let's go", .plain "sign me up", .plain "i'll take it",
   .plain "sounds good", .plain "deal", .plain "agreed", .plain "accept",
   .plain "i'm in", .plain "let's start", .plain "proceed", .plain "d'accord",
   .plain "je suis intéressé", .plain "allons-y", .plain "banco",
   .plain "on y va", .plain "je prends", .plain "je signe", .plain "c'est bon",
   .plain "ça marche", .plain "parfait", .plain "je valide", .plain "on fonce"]

/-- Lowered character list of a message (`str.lower()`, ASCII approximation). -/
def lowerChars (s : String) : List Char :=
  s.toList.map Char.toLower

/-- Whether one keyword fires on a lowered message. -/
def keywordFires (m : List Char) : ConvKeyword → Bool
  | .plain p => listIsInfix p.toList m
  | .okWord => occursAsWord ['o', 'k'] m

namespace SalesOrchestrator

/-- `SalesOrchestrator._check_for_conversion`. -/
def check_for_conversion (s : SalesState) : Bool :=
  let m := lowerChars s.current_message
  conversion_keywords.any (keywordFires m)

end SalesOrchestrator

/-! ## Completion-service responses, as parsed JSON objects

Each structure mirrors the keys the corresponding `process` method reads
from the parsed JSON; an `Option` field set to `none` stands for an absent
key (`dict.get` then yields its default). -/

/-- Parsed classifier response (`ProspectClassifier.process`). -/
structure Classification where
  lead_type : Option String := none
  sector : Option String := none
  company_size : Option String := none
  decision_maker : Option Bool := none
  maturite_ia : Option String := none
  pain_points : Option (List String) := none
  interests : Option (List String) := none
  lead_score : Option Int := none
  key_insights : Option (List String) := none
  offre_recommandee : Option String := none
deriving DecidableEq, Repr

/-- Parsed seller response (`SellerAgent.process`). -/
structure SellerResp where
  offre : Option String := none
  tarif : Option Int := none
  duree : Option String := none
  contenu : Option (List String) := none
  remise : Option Int := none
  prochaine_etape : Option String := none
  engagement : Option String := none
  conditions : Option (List String) := none
  pitch : Option String := none
deriving DecidableEq, Repr

/-- Parsed supervisor response (`SupervisorAgent.process`).  Fields the code
never reads (`conversion_probability`, `reasoning`, `recommended_action`)
are omitted. -/
structure SupervisorResp where
  analysis : Option String := none
  prospect_sentiment : Option String := none
  goal_achieved : Option Bool := none
  next_agent : Option String := none
  should_escalate : Option Bool := none
  should_close : Option Bool := none
deriving DecidableEq, Repr

/-- Python exceptions that escape a `process` call in this code base. -/
inductive PyError where
  /-- `AttributeError`: attribute lookup failed (no such method on the object). -/
  | attributeError
  /-- `ValueError("No session found with ID: ...")` from `continue_conversation`. -/
  | valueErrorNoSession
deriving DecidableEq, Repr

namespace ProspectClassifier

/-- `ProspectClassifier.process`.  `resp = none` is the `JSONDecodeError`
branch, which only sets the three fallback fields (it appends no message). -/
def process (resp : Option Classification) (s : SalesState) : SalesState :=
  match resp with
  | some c =>
    let lead_info :=
      { s.lead_info with
        sector := c.sector
        company_size := c.company_size
        decision_maker := c.decision_maker.getD false
        pain_points := c.pain_points.getD []
        interests := c.interests.getD []
        maturite_ia := some (c.maturite_ia.getD "debutant")
        offre_recommandee := some (c.offre_recommandee.getD "DIAGNOSTIC") }
    let qualified := c.lead_score.getD 0 ≥ 40
    let s :=
      { s with
        lead_info := lead_info
        lead_type := c.lead_type
        lead_score := c.lead_score.getD 0
        qualified := qualified
        key_insights := s.key_insights ++ c.key_insights.getD []
        last_agent := some s.current_agent
        current_agent := "classifier" }
    if s.qualified then
      { s with next_action := some "seller", context := "qualified_lead" }
    else
      { s with next_action := some "nurture", context := "unqualified_lead" }
  | none =>
    { s with qualified := false, lead_score := 0, next_action := some "seller" }

end ProspectClassifier

namespace SellerAgent

/-- `SellerAgent.process`.  `resp = none` is the `JSONDecodeError` branch,
which appends the raw completion text as a fallback assistant message. -/
def process (resp : Option SellerResp) (raw : String) (s : SalesState) : SalesState :=
  match resp with
  | some r =>
    let offer : Offer :=
      { offre := r.offre
        tarif := r.tarif
        duree := r.duree
        contenu := r.contenu.getD []
        remise := r.remise.getD 0
        prochaine_etape := r.prochaine_etape
        engagement := r.engagement
        conditions := r.conditions.getD [] }
    { s with
      current_offer := some offer
      offers_made := s.offers_made ++ [offer]
      messages := s.messages ++
        [{ role := "assistant", content := r.pitch.getD ""
           metadata := [("agent", .str "seller"),
             ("offer", .offerv offer.offre offer.tarif offer.duree offer.contenu
               offer.remise offer.prochaine_etape offer.engagement offer.conditions)] }]
      last_agent := some s.current_agent
      current_agent := "seller"
      context := "offer_presented"
      next_action := some "wait_for_response" }
  | none =>
    { s with
      messages := s.messages ++
        [{ role := "assistant", content := raw
           metadata := [("agent", .str "seller"), ("error", .str "parse_failed")] }] }

end SellerAgent

namespace SupervisorAgent

/-- `SupervisorAgent.process`.  `resp = none` is the `JSONDecodeError`
branch, which only defaults `next_action` to `wait_for_response`. -/
def process (resp : Option SupervisorResp) (s : SalesState) : SalesState :=
  match resp with
  | some a =>
    let s :=
      { s with
        sentiment := a.prospect_sentiment.getD "neutre"
        key_insights := s.key_insights ++
          ["Superviseur : " ++ a.analysis.getD "Analyse non disponible"]
        last_agent := some s.current_agent
        current_agent := "supervisor" }
    if truthyOptBool a.goal_achieved || truthyOptBool a.should_close then
      let s := { s with next_action := some "crm" }
      if truthyOptBool a.should_escalate then { s with escalated := true } else s
    else
      let next_agent := a.next_agent.getD "none"
      if next_agent ≠ "none" then { s with next_action := some next_agent }
      else { s with next_action := some "wait_for_response" }
  | none =>
    { s with next_action := some "wait_for_response" }

end SupervisorAgent

namespace NegotiatorAgent

/-- The fixed escalation message appended by the `negotiation_count >= 3`
guard of `NegotiatorAgent.process`. -/
def escalationMsg : Msg :=
  { role := "assistant"
    content := "Je comprends vos préoccupations et je souhaite vraiment trouver une solution adaptée à vos besoins. Je vous propose d'organiser un échange direct avec Suan Tay, notre fondateur, qui pourra vous proposer un accompagnement totalement sur-mesure. Seriez-vous disponible pour un appel de 30 minutes cette semaine ?"
    metadata := [("agent", .str "negotiator"), ("action", .str "escalate")] }

/-- `NegotiatorAgent.process`.

If `negotiation_count >= 3` the method returns before the completion call:
it sets `escalated`, sets `next_action` to `"escalate"`, appends the fixed
escalation message and returns the state.

Otherwise the method invokes the completion service (hence the `Bool`
component of the result, true iff the completion service was called) and
then evaluates `self.parse_llm_json(response.content)`.  No class in the
repository defines `parse_llm_json` (neither `NegotiatorAgent` nor
`BaseAgent`), so the attribute lookup raises `AttributeError` before the
response is even inspected; `except json.JSONDecodeError` does not catch
it, so the exception escapes `process`.  The `raw` response text is
therefore never consumed. -/
def process (raw : String) (s : SalesState) : Except PyError SalesState × Bool :=
  if s.negotiation_count ≥ 3 then
    (.ok { s with
            escalated := true
            next_action := some "escalate"
            messages := s.messages ++ [escalationMsg] }, false)
  else
    let _ := raw
    (.error .attributeError, true)

end NegotiatorAgent

namespace CRMAgent

/-- Closing message for `converted` states (the `CONTACT_INFO` values are
substituted as in the f-string). -/
def convertedMsg : String :=
  "Parfait ! Je note votre intérêt pour notre accompagnement.\n\nPour planifier votre diagnostic gratuit avec Suan Tay, notre fondateur, vous pouvez :\n- Réserver directement un créneau : https://calendar.app.google/BcE52KKmVRmki1kZ8\n- Nous contacter par email : suan.tay@iafluence.fr\n- Nous appeler : 06 65 19 76 33\n\nSuan vous recontactera sous 24h pour préparer votre rendez-vous. À très bientôt !"

/-- Closing message for `escalated` (and not converted) states. -/
def escalatedMsg : String :=
  "J'ai bien noté vos besoins spécifiques.\n\nSuan Tay, notre fondateur, va vous recontacter personnellement sous 24h pour discuter d'un accompagnement sur-mesure.\n\nEn attendant, vous pouvez :\n- Réserver un créneau directement : https://calendar.app.google/BcE52KKmVRmki1kZ8\n- L'appeler : 06 65 19 76 33\n- Lui écrire : suan.tay@iafluence.fr\n\nÀ très bientôt !"

/-- Closing message for neither-converted-nor-escalated states. -/
def neitherMsg : String :=
  "Merci pour cet échange !\n\nSi vous souhaitez en discuter à l'avenir, n'hésitez pas à contacter Suan Tay :\n- Email : suan.tay@iafluence.fr\n- Téléphone : 06 65 19 76 33\n- Prendre RDV : https://calendar.app.google/BcE52KKmVRmki1kZ8\n\nIAfluence - L'IA utile, au bon endroit, au bon rythme."

/-- `CRMAgent.process`.  The CRM record and the follow-up task list are
built locally and printed only (simulated sync); they do not affect the
state, so they are not modelled.  The state effects are: `crm_synced`,
agent tracking, the outcome-selected closing message, `closed` and
`next_action = "end"`. -/
def process (s : SalesState) : SalesState :=
  let message :=
    if s.converted then convertedMsg
    else if s.escalated then escalatedMsg
    else neitherMsg
  { s with
    crm_synced := true
    last_agent := some s.current_agent
    current_agent := "crm"
    messages := s.messages ++
      [{ role := "assistant", content := message
         metadata := [("agent", .str "crm"), ("synced", .boolv true)] }]
    closed := true
    next_action := some "end" }

end CRMAgent

/-- The target of `_route_from_mcp` (`ended` is the graph's `END`). -/
inductive Route where
  | classifier
  | seller
  | negotiator
  | supervisor
  | crm
  | ended
deriving DecidableEq, Repr

namespace SalesOrchestrator

/-- `SalesOrchestrator._mcp_decision_node`, branch for branch. -/
def mcp_decision_node (s : SalesState) : SalesState :=
  -- First interaction - always classify (`if not state.get("lead_type")`)
  if !truthyOptStr s.lead_type then
    { s with next_action := some "classifier", context := "initial_classification" }
  -- Check if conversation is closed
  else if s.closed then
    { s with next_action := some "end" }
  -- Check if already routed to CRM
  else if s.next_action = some "crm" || s.next_action = some "end" then
    s
  -- Check for explicit conversion (only after an offer has been made)
  else if !s.offers_made.isEmpty && check_for_conversion s then
    { s with converted := true, next_action := some "crm" }
  -- Check for escalation
  else if s.escalated then
    { s with next_action := some "crm" }
  -- If no next action is set (or it is wait_for_response), use supervisor
  else if !truthyOptStr s.next_action || s.next_action = some "wait_for_response" then
    { s with next_action := some "supervisor" }
  else
    s

/-- `SalesOrchestrator._route_from_mcp`: any unrecognized `next_action`
(including `None`, `"nurture"`, `"escalate"`, `"wait_for_response"`)
falls through to `"end"`. -/
def route_from_mcp (s : SalesState) : Route :=
  match s.next_action with
  | some "classifier" => .classifier
  | some "seller" => .seller
  | some "negotiator" => .negotiator
  | some "supervisor" => .supervisor
  | some "crm" => .crm
  | _ => .ended

end SalesOrchestrator

/-! ## Session store (`memory.py`, `InMemoryStore`) -/

/-- The `InMemoryStore`: `sessions` is the dict keyed by session id
(`updated_at` timestamps are not modelled), `insights` the insight list
(each entry keeps its `session_id` and text). -/
structure MemoryStore where
  sessions : List (String × SalesState) := []
  insights : List (String × String) := []
deriving DecidableEq, Repr

/-- Dict assignment `self.sessions[session_id] = ...`: replace the binding
if present, else append it. -/
def upsertSession : List (String × SalesState) → String → SalesState → List (String × SalesState)
  | [], sid, s => [(sid, s)]
  | (k, v) :: rest, sid, s =>
    if k = sid then (sid, s) :: rest else (k, v) :: upsertSession rest sid s

namespace InMemoryStore

/-- `InMemoryStore.save_session`. -/
def save_session (st : MemoryStore) (sid : String) (s : SalesState) : MemoryStore :=
  { st with sessions := upsertSession st.sessions sid s }

/-- `InMemoryStore.load_session`. -/
def load_session (st : MemoryStore) (sid : String) : Option SalesState :=
  match st.sessions.find? (fun kv => kv.1 = sid) with
  | some kv => some kv.2
  | none => none

/-- `InMemoryStore.save_insight`, iterated over a list of insights as in
`_crm_node`'s `for insight in state.get("key_insights", [])`. -/
def save_insights (st : MemoryStore) (sid : String) (insights : List String) : MemoryStore :=
  { st with insights := st.insights ++ insights.map (fun i => (sid, i)) }

end InMemoryStore

/-! ## The graph loop

`_build_graph` wires: entry point `mcp_decision`; conditional edges from it
via `_route_from_mcp`; every agent node goes back to `mcp_decision`; the
`crm` node (which also saves the session and the insights, `_crm_node`)
goes to `END`.

The completion service is modelled by a `Script`: one queue of parsed
responses per completion-calling node, consumed in invocation order.  An
exhausted queue yields an unparsable response (`none`, raw text `""`) —
the environment keeps answering, just not with usable JSON.  The negotiator
consumes no script entry because its response is never inspected (see
`NegotiatorAgent.process`).  `trace` records the agent nodes executed, in
order. -/

/-- Queues of completion responses for one run. -/
structure Script where
  cls : List (Option Classification) := []
  sell : List (Option SellerResp × String) := []
  sup : List (Option SupervisorResp) := []
deriving Repr

/-- Pop a classifier response (exhausted queue: unparsable response). -/
def Script.popCls (sc : Script) : Option Classification × Script :=
  match sc.cls with
  | [] => (none, sc)
  | r :: rest => (r, { sc with cls := rest })

/-- Pop a seller response with its raw text. -/
def Script.popSell (sc : Script) : (Option SellerResp × String) × Script :=
  match sc.sell with
  | [] => ((none, ""), sc)
  | r :: rest => (r, { sc with sell := rest })

/-- Pop a supervisor response. -/
def Script.popSup (sc : Script) : Option SupervisorResp × Script :=
  match sc.sup with
  | [] => (none, sc)
  | r :: rest => (r, { sc with sup := rest })

/-- Outcome of one `graph.invoke` call. -/
inductive RunResult where
  /-- The graph reached `END`; final state, final store, executed agent nodes. -/
  | done (s : SalesState) (st : MemoryStore) (trace : List String)
  /-- A Python exception escaped a node. -/
  | pyError (e : PyError) (trace : List String)
  /-- The step budget ran out (LangGraph's `GraphRecursionError`). -/
  | outOfFuel (trace : List String)
deriving DecidableEq, Repr

namespace SalesOrchestrator

/-- The graph loop: `mcp_decision`, route, run the chosen node, repeat.
`fuel` bounds the number of iterations, mirroring LangGraph's recursion
limit. -/
def runGraph : Nat → Script → MemoryStore → SalesState → List String → RunResult
  | 0, _, _, _, trace => .outOfFuel trace
  | fuel + 1, sc, store, s, trace =>
    let s := mcp_decision_node s
    match route_from_mcp s with
    | .ended => .done s store trace
    | .crm =>
      -- `_crm_node`: run the CRM agent, save the session, save the insights.
      let s := CRMAgent.process s
      let store := InMemoryStore.save_session store s.session_id s
      let store := InMemoryStore.save_insights store s.session_id s.key_insights
      .done s store (trace ++ ["crm"])
    | .classifier =>
      runGraph fuel sc.popCls.2 store
        (ProspectClassifier.process sc.popCls.1 s) (trace ++ ["classifier"])
    | .seller =>
      runGraph fuel sc.popSell.2 store
        (SellerAgent.process sc.popSell.1.1 sc.popSell.1.2 s) (trace ++ ["seller"])
    | .negotiator =>
      -- The response text is irrelevant: `NegotiatorAgent.process` either
      -- returns before the completion call or fails before reading it.
      match NegotiatorAgent.process "" s with
      | (.ok s, _) => runGraph fuel sc store s (trace ++ ["negotiator"])
      | (.error e, _) => .pyError e (trace ++ ["negotiator"])
    | .supervisor =>
      runGraph fuel sc.popSup.2 store
        (SupervisorAgent.process sc.popSup.1 s) (trace ++ ["supervisor"])

/-- `SalesOrchestrator.run_conversation` (with an explicitly supplied
session id and no `lead_info` seed: the optional pre-population of
`lead_info` from a prospect form is not exercised by any claim). -/
def run_conversation (fuel : Nat) (sc : Script) (store : MemoryStore)
    (initial_message session_id : String) : RunResult :=
  let s := create_initial_state initial_message session_id
  let s := add_message s "user" initial_message
  runGraph fuel sc store s []

/-- `SalesOrchestrator.continue_conversation`: load the session (raising
`ValueError` if absent), record the new message, clear `next_action`, and
re-invoke the graph. -/
def continue_conversation (fuel : Nat) (sc : Script) (store : MemoryStore)
    (session_id new_message : String) : RunResult :=
  match InMemoryStore.load_session store session_id with
  | none => .pyError .valueErrorNoSession []
  | some s =>
    let s := { s with current_message := new_message }
    let s := add_message s "user" new_message
    let s := { s with next_action := none }
    runGraph fuel sc store s []

end SalesOrchestrator

/-- One invocation of any of the six operations that mutate a
`SalesState`, with its completion response where the operation takes one. -/
inductive AgentOp where
  | classifierOp (r : Option Classification)
  | sellerOp (r : Option SellerResp) (raw : String)
  | negotiatorOp (raw : String)
  | supervisorOp (r : Option SupervisorResp)
  | crmOp
  | mcpOp
deriving Repr

/-- Apply one operation; `none` when the operation raises (negotiator with
`negotiation_count < 3`). -/
def applyOp : AgentOp → SalesState → Option SalesState
  | .classifierOp r, s => some (ProspectClassifier.process r s)
  | .sellerOp r raw, s => some (SellerAgent.process r raw s)
  | .negotiatorOp raw, s =>
    match NegotiatorAgent.process raw s with
    | (.ok s, _) => some s
    | (.error _, _) => none
  | .supervisorOp r, s => some (SupervisorAgent.process r s)
  | .crmOp, s => some (CRMAgent.process s)
  | .mcpOp, s => some (SalesOrchestrator.mcp_decision_node s)

/-! ## Theorems -/

/-- Saving a session and then loading the same id yields the saved state. -/
theorem load_save_session (st : MemoryStore) (sid : String) (s : SalesState) :
    InMemoryStore.load_session (InMemoryStore.save_session st sid s) sid = some s := by
  unfold InMemoryStore.load_session InMemoryStore.save_session
  induction st.sessions with
  | nil => simp [upsertSession]
  | cons kv rest ih =>
    by_cases h : kv.1 = sid
    · simp [upsertSession, h]
    · simpa [upsertSession, h, List.find?] using ih

/-- Saving insights does not touch the session table. -/
theorem load_save_insights (st : MemoryStore) (sid sid' : String) (ins : List String) :
    InMemoryStore.load_session (InMemoryStore.save_insights st sid' ins) sid =
      InMemoryStore.load_session st sid := rfl

/-- On a state whose escalation flag is already set, the decision node
routes to CRM (via either the conversion branch or the escalation branch). -/
theorem mcp_routes_escalated (s : SalesState)
    (hlead : truthyOptStr s.lead_type = true)
    (hclosed : s.closed = false)
    (hna : s.next_action = some "escalate")
    (hesc : s.escalated = true) :
    SalesOrchestrator.route_from_mcp (SalesOrchestrator.mcp_decision_node s) = .crm := by
  unfold SalesOrchestrator.mcp_decision_node
  rw [hlead, hclosed, hna, hesc]
  simp only [Bool.not_true, Bool.false_eq_true, if_false, reduceCtorEq]
  split
  · next h => exact absurd h (by decide)
  · split <;> rfl

/-- C1: with `negotiation_count >= 3`, `NegotiatorAgent.process` makes no
completion call (the `Bool` component is `false` and the result does not
depend on the completion text), deterministically sets `escalated`,
appends the fixed escalation message and returns; the decision node then
routes the state to CRM. -/
theorem claim_C1 (raw : String) (s : SalesState)
    (h3 : 3 ≤ s.negotiation_count)
    (hlead : truthyOptStr s.lead_type = true)
    (hclosed : s.closed = false) :
    NegotiatorAgent.process raw s =
      (.ok { s with escalated := true
                    next_action := some "escalate"
                    messages := s.messages ++ [NegotiatorAgent.escalationMsg] }, false) ∧
    SalesOrchestrator.route_from_mcp
      (SalesOrchestrator.mcp_decision_node
        { s with escalated := true
                 next_action := some "escalate"
                 messages := s.messages ++ [NegotiatorAgent.escalationMsg] }) = .crm := by
  constructor
  · simp [NegotiatorAgent.process, h3]
  · exact mcp_routes_escalated _ hlead hclosed rfl rfl

/-- Concrete state for the C1 witness: a qualified lead at the negotiation
limit. -/
def c1s : SalesState :=
  { create_initial_state "C'est encore trop cher pour nous" "sess-c1" with
    lead_type := some "chaud", lead_score := 80, qualified := true,
    negotiation_count := 3 }

/-- Witness for C1 at a concrete state with `negotiation_count = 3`. -/
theorem claim_C1_witness :
    NegotiatorAgent.process "réponse jamais utilisée" c1s =
      (.ok { c1s with escalated := true
                      next_action := some "escalate"
                      messages := c1s.messages ++ [NegotiatorAgent.escalationMsg] }, false) ∧
    SalesOrchestrator.route_from_mcp
      (SalesOrchestrator.mcp_decision_node
        { c1s with escalated := true
                   next_action := some "escalate"
                   messages := c1s.messages ++ [NegotiatorAgent.escalationMsg] }) = .crm :=
  claim_C1 "réponse jamais utilisée" c1s (by decide) (by decide) (by decide)

/-- Concrete state for C2: an agent has just set `wait_for_response`; no
offer exists, nothing is escalated or closed. -/
def c2s : SalesState :=
  { create_initial_state "Pouvez-vous préciser le périmètre ?" "sess-c2" with
    lead_type := some "tiede", lead_score := 55, qualified := true,
    next_action := some "wait_for_response" }

/-- Counterexample to C2 as stated: on a `wait_for_response` state (not
closed, not escalated, no conversion) the decision node does not suspend:
it rewrites `next_action` to `"supervisor"` and the Supervisor role is
invoked — with an uncooperative completion service, repeatedly, until the
step budget runs out (LangGraph's recursion error), never suspending. -/
theorem claim_C2_cx :
    (SalesOrchestrator.mcp_decision_node c2s).next_action = some "supervisor" ∧
    SalesOrchestrator.route_from_mcp (SalesOrchestrator.mcp_decision_node c2s) =
      .supervisor ∧
    SalesOrchestrator.runGraph 2 {} {} c2s [] = .outOfFuel ["supervisor", "supervisor"] := by
  decide

/-- C2 (amended): when `next_action` is `wait_for_response` on a live state
(lead typed, not closed, no conversion, not escalated), the decision node
replaces it with `"supervisor"` and routes to the Supervisor role; the run
does not return control to the caller at that point. -/
theorem claim_C2 (s : SalesState)
    (hlead : truthyOptStr s.lead_type = true)
    (hclosed : s.closed = false)
    (hwait : s.next_action = some "wait_for_response")
    (hconv : (!s.offers_made.isEmpty && SalesOrchestrator.check_for_conversion s) = false)
    (hesc : s.escalated = false) :
    SalesOrchestrator.mcp_decision_node s = { s with next_action := some "supervisor" } ∧
    SalesOrchestrator.route_from_mcp (SalesOrchestrator.mcp_decision_node s) =
      .supervisor := by
  have h : SalesOrchestrator.mcp_decision_node s = { s with next_action := some "supervisor" } := by
    unfold SalesOrchestrator.mcp_decision_node
    rw [hlead, hclosed, hwait, hconv, hesc]
    simp
  refine ⟨h, ?_⟩
  rw [h]
  rfl

/-- Witness for the amended C2 at the concrete state `c2s`. -/
theorem claim_C2_witness :
    SalesOrchestrator.mcp_decision_node c2s = { c2s with next_action := some "supervisor" } ∧
    SalesOrchestrator.route_from_mcp (SalesOrchestrator.mcp_decision_node c2s) =
      .supervisor :=
  claim_C2 c2s (by decide) (by decide) (by decide) (by decide) (by decide)

/-- Concrete offer for the C3 failing input. -/
def c3offer : Offer :=
  { offre := some "STRATEGIE", tarif := some 3500, duree := some "3 semaines"
    contenu := ["Charte IA"], remise := 0, prochaine_etape := some "proposition détaillée"
    engagement := some "ponctuel", conditions := [] }

/-- Failing input for C3: a first-round negotiation turn
(`negotiation_count = 1 < 3`) on a qualified lead with a current offer. -/
def c3s : SalesState :=
  { create_initial_state "C'est trop cher" "sess-c3" with
    lead_type := some "chaud", lead_score := 80, qualified := true,
    negotiation_count := 1, current_offer := some c3offer,
    offers_made := [c3offer], next_action := some "negotiator" }

/-- A completion text that is the expected well-formed JSON (braces written
as their escapes). -/
def c3raw : String :=
  "\x7b \"objection_category\": \"BUDGET\", \"objection_summary\": \"Prix trop élevé\", \"response\": \"Je comprends, voici un échelonnement.\", \"should_escalate\": false \x7d"

/-- C3 (code bug): with `negotiation_count < 3` and even a perfectly
parseable completion, `NegotiatorAgent.process` performs none of the
claimed updates — the call `self.parse_llm_json(response.content)` raises
`AttributeError` (no such method exists anywhere in the repository), after
the completion service has been invoked. -/
theorem claim_C3 :
    NegotiatorAgent.process c3raw c3s = (.error .attributeError, true) := rfl

/-- Failing input for C9: a fresh negotiation turn (`negotiation_count = 0`)
whose completion text is not parseable JSON. -/
def c9s : SalesState :=
  { create_initial_state "Je dois en parler à mon associé" "sess-c9" with
    lead_type := some "tiede", lead_score := 55, qualified := true,
    negotiation_count := 0, current_offer := some
      { offre := some "DIAGNOSTIC", tarif := some 490, duree := some "45 min"
        contenu := ["Audit"], remise := 0, prochaine_etape := none
        engagement := none, conditions := [] },
    next_action := some "negotiator" }

/-- C9 (code bug): on an unparsable completion with `negotiation_count < 3`
the claimed fallback (raw text appended, count incremented) does not
happen: `process` raises `AttributeError` at `self.parse_llm_json` before
any parsing; the `JSONDecodeError` handler is unreachable (and itself
references an undefined variable `content` and contains no increment). -/
theorem claim_C9 :
    NegotiatorAgent.process "Réponse libre, pas du tout du JSON" c9s =
      (.error .attributeError, true) := rfl

/-- C4 (amended): the session store is written only by the CRM node.
Whenever the graph loop returns a final state, either the store is
untouched (runs ending through the unrecognized-action `"end"` route), or
the saved entry for the returned state's session id is exactly the
returned state, which is then closed (runs ending through CRM). -/
theorem claim_C4 (fuel : Nat) :
    ∀ (sc : Script) (store : MemoryStore) (s : SalesState) (tr : List String)
      (s' : SalesState) (store' : MemoryStore) (tr' : List String),
      SalesOrchestrator.runGraph fuel sc store s tr = .done s' store' tr' →
      store' = store ∨
        (InMemoryStore.load_session store' s'.session_id = some s' ∧ s'.closed = true) := by
  induction fuel with
  | zero =>
    intro sc store s tr s' store' tr' h
    exact absurd h (by simp [SalesOrchestrator.runGraph])
  | succ n ih =>
    intro sc store s tr s' store' tr' h
    simp only [SalesOrchestrator.runGraph] at h
    split at h
    · -- route "end": the store is returned unchanged
      rw [RunResult.done.injEq] at h
      exact Or.inl h.2.1.symm
    · -- route "crm": the CRM node saved exactly the returned state
      rw [RunResult.done.injEq] at h
      obtain ⟨h1, h2, _⟩ := h
      subst h1
      subst h2
      refine Or.inr ⟨?_, ?_⟩
      · rw [load_save_insights]
        exact load_save_session _ _ _
      · simp [CRMAgent.process]
    · exact ih _ _ _ _ _ _ _ h
    · exact ih _ _ _ _ _ _ _ h
    · -- negotiator: either the escalation path continued, or the run crashed
      split at h
      · exact ih _ _ _ _ _ _ _ h
      · exact RunResult.noConfusion h
    · exact ih _ _ _ _ _ _ _ h

/-- Concrete already-closed state for the C4 witness (the run returns at
once through the `"end"` route, store untouched). -/
def c4ws : SalesState :=
  { create_initial_state "Merci, au revoir" "sess-c4w" with
    lead_type := some "froid", closed := true }

/-- Witness for the amended C4: a one-step run on a closed state. -/
theorem claim_C4_witness :
    ({} : MemoryStore) = {} ∨
      (InMemoryStore.load_session {}
          ({ c4ws with next_action := some "end" } : SalesState).session_id =
        some { c4ws with next_action := some "end" } ∧
      ({ c4ws with next_action := some "end" } : SalesState).closed = true) :=
  claim_C4 1 {} {} c4ws [] { c4ws with next_action := some "end" } {} [] (by decide)

/-- Classifier response for the C4 counterexample run: a successfully
parsed cold-lead classification. -/
def c4resp : Classification :=
  { lead_type := some "froid", lead_score := some 20 }

/-- Script of the C4 counterexample run. -/
def c4sc : Script := { cls := [some c4resp] }

/-- Checker for the C4 counterexample run: the run returns (`done`) with
the store still empty, the final state not closed and not saved. -/
def c4runNoSave : Bool :=
  match SalesOrchestrator.run_conversation 4 c4sc {} "just curious, browsing" "sess-c4" with
  | .done f st tr =>
    decide (st = ({} : MemoryStore)) && !f.closed &&
      decide (tr = ["classifier"]) && decide (f.session_id = "sess-c4") &&
      decide (InMemoryStore.load_session st "sess-c4" = none)
  | _ => false

/-- Counterexample to C4 as stated: the unqualified (`nurture`) run returns
control to the caller without any save — the final state is not in the
store, and a subsequent `continue_conversation` for that session raises
`ValueError` instead of resuming the turn's state. -/
theorem claim_C4_cx :
    c4runNoSave = true ∧
    SalesOrchestrator.continue_conversation 4 {} {} "sess-c4" "une relance" =
      .pyError .valueErrorNoSession [] := by
  constructor
  · rfl
  · rfl

/-- Whether a keyword occurs in the lowered message as a whole,
word-bounded word (what boundary-safe matching would require). -/
def keywordAsWholeWord (m : List Char) : ConvKeyword → Bool
  | .plain p => occursAsWord p.toList m
  | .okWord => occursAsWord ['o', 'k'] m

/-- Concrete state for the C5 counterexample: an offer exists and the
latest prospect message is "No pressure, still thinking". -/
def c5sub : SalesState :=
  { create_initial_state "No pressure, still thinking" "sess-c5" with
    lead_type := some "tiede", lead_score := 55, qualified := true,
    offers_made := [{ offre := some "DIAGNOSTIC", tarif := some 490, duree := some "45 min"
                      contenu := ["Audit"], remise := 0, prochaine_etape := none
                      engagement := none, conditions := [] }],
    next_action := some "wait_for_response" }

/-- Counterexample to C5 as stated: on "No pressure, still thinking" no
keyword of the configured list occurs as a whole word, yet conversion
fires (the keyword "sure" matches inside "pressure") and the decision node
marks the state converted. -/
theorem claim_C5_cx :
    SalesOrchestrator.check_for_conversion c5sub = true ∧
    conversion_keywords.any
      (keywordAsWholeWord (lowerChars "No pressure, still thinking")) = false ∧
    (SalesOrchestrator.mcp_decision_node c5sub).converted = true ∧
    (SalesOrchestrator.mcp_decision_node c5sub).next_action = some "crm" := by
  decide

/-- C5 (amended): conversion detection lowercases the message; the keyword
"ok" alone is matched with word boundaries while every other keyword is a
plain substring match.  Hence, on any live state with at least one prior
offer, "I use TikTok daily" does not trigger conversion and "Ok, let's do
it" does. -/
theorem claim_C5 (s : SalesState)
    (hlead : truthyOptStr s.lead_type = true)
    (hclosed : s.closed = false)
    (hna1 : s.next_action ≠ some "crm")
    (hna2 : s.next_action ≠ some "end")
    (hoff : s.offers_made ≠ []) :
    (s.current_message = "I use TikTok daily" →
      SalesOrchestrator.check_for_conversion s = false ∧
      (SalesOrchestrator.mcp_decision_node s).converted = s.converted) ∧
    (s.current_message = "Ok, let's do it" →
      SalesOrchestrator.check_for_conversion s = true ∧
      (SalesOrchestrator.mcp_decision_node s).converted = true ∧
      (SalesOrchestrator.mcp_decision_node s).next_action = some "crm") := by
  have h3 : (decide (s.next_action = some "crm") ||
      decide (s.next_action = some "end")) = false := by
    simp [hna1, hna2]
  have hne : s.offers_made.isEmpty = false := by
    cases ho : s.offers_made with
    | nil => exact absurd ho hoff
    | cons a l => rfl
  constructor
  · intro hm
    have hc : SalesOrchestrator.check_for_conversion s = false := by
      unfold SalesOrchestrator.check_for_conversion
      rw [hm]
      decide
    refine ⟨hc, ?_⟩
    unfold SalesOrchestrator.mcp_decision_node
    rw [hlead, hclosed, h3, hc]
    simp only [Bool.not_true, Bool.false_eq_true, if_false, Bool.and_false]
    split
    · rfl
    · split <;> rfl
  · intro hm
    have hc : SalesOrchestrator.check_for_conversion s = true := by
      unfold SalesOrchestrator.check_for_conversion
      rw [hm]
      decide
    refine ⟨hc, ?_, ?_⟩ <;>
    · unfold SalesOrchestrator.mcp_decision_node
      rw [hlead, hclosed, h3, hc, hne]
      simp

/-- Concrete state for the C5 witness: an offer exists and the prospect
answers "Ok, let's do it". -/
def c5ok : SalesState :=
  { c5sub with current_message := "Ok, let's do it", session_id := "sess-c5w" }

/-- Witness for the amended C5 at the concrete state `c5ok`. -/
theorem claim_C5_witness :
    (c5ok.current_message = "I use TikTok daily" →
      SalesOrchestrator.check_for_conversion c5ok = false ∧
      (SalesOrchestrator.mcp_decision_node c5ok).converted = c5ok.converted) ∧
    (c5ok.current_message = "Ok, let's do it" →
      SalesOrchestrator.check_for_conversion c5ok = true ∧
      (SalesOrchestrator.mcp_decision_node c5ok).converted = true ∧
      (SalesOrchestrator.mcp_decision_node c5ok).next_action = some "crm") :=
  claim_C5 c5ok (by decide) (by decide) (by decide) (by decide) (by decide)

/-- First classifier response for C6: pain points recorded. -/
def c6r1 : Classification :=
  { lead_type := some "chaud", lead_score := some 85,
    pain_points := some ["Shadow IA", "Gouvernance"] }

/-- Second classifier response for C6: the `pain_points` key is omitted. -/
def c6r2 : Classification :=
  { lead_type := some "chaud", lead_score := some 85 }

/-- Counterexample to C6 as stated: classifying twice, the second response
omitting `pain_points`, erases the previously recorded pain points
(`classification.get("pain_points", [])` overwrites them with the empty
list). -/
theorem claim_C6_cx :
    (ProspectClassifier.process (some c6r1)
        (create_initial_state "Nous subissons du Shadow IA" "sess-c6")).lead_info.pain_points =
      ["Shadow IA", "Gouvernance"] ∧
    (ProspectClassifier.process (some c6r2)
        (ProspectClassifier.process (some c6r1)
          (create_initial_state "Nous subissons du Shadow IA" "sess-c6"))).lead_info.pain_points =
      [] := by
  decide

/-- C6 (amended): on a successful classification, `lead_info` is updated in
place — keys the classifier never writes (name, company, email, phone,
budget) are preserved, but every classifier-written key (sector,
company_size, decision_maker, pain_points, interests, maturite_ia,
offre_recommandee) is unconditionally overwritten from the new response,
with its `dict.get` default when the response omits it.  In particular an
omitted `pain_points` resets the recorded pain points to the empty list. -/
theorem claim_C6 (c : Classification) (s : SalesState) :
    (ProspectClassifier.process (some c) s).lead_info.name = s.lead_info.name ∧
    (ProspectClassifier.process (some c) s).lead_info.company = s.lead_info.company ∧
    (ProspectClassifier.process (some c) s).lead_info.email = s.lead_info.email ∧
    (ProspectClassifier.process (some c) s).lead_info.phone = s.lead_info.phone ∧
    (ProspectClassifier.process (some c) s).lead_info.budget = s.lead_info.budget ∧
    (ProspectClassifier.process (some c) s).lead_info.sector = c.sector ∧
    (ProspectClassifier.process (some c) s).lead_info.company_size = c.company_size ∧
    (ProspectClassifier.process (some c) s).lead_info.decision_maker =
      c.decision_maker.getD false ∧
    (ProspectClassifier.process (some c) s).lead_info.pain_points = c.pain_points.getD [] ∧
    (ProspectClassifier.process (some c) s).lead_info.interests = c.interests.getD [] ∧
    (ProspectClassifier.process (some c) s).lead_info.maturite_ia =
      some (c.maturite_ia.getD "debutant") ∧
    (ProspectClassifier.process (some c) s).lead_info.offre_recommandee =
      some (c.offre_recommandee.getD "DIAGNOSTIC") := by
  simp only [ProspectClassifier.process]
  split <;> simp

/-- Classifier response for the C7 counterexample run. -/
def c7resp : Classification :=
  { lead_type := some "froid", lead_score := some 25 }

/-- Script of the C7 counterexample run. -/
def c7sc : Script := { cls := [some c7resp] }

/-- Checker for the C7 counterexample run: the unqualified run ends with
`next_action = "nurture"`, not closed, and the Seller node was never
executed. -/
def c7noSeller : Bool :=
  match SalesOrchestrator.run_conversation 4 c7sc {} "Bonjour, simple curiosité" "sess-c7" with
  | .done f _ tr =>
    !f.qualified && decide (f.next_action = some "nurture") && !f.closed &&
      decide (tr = ["classifier"]) && !(tr.contains "seller")
  | _ => false

/-- Counterexample to C7 as stated: a successful unqualified classification
does not route to the Seller — the run terminates through the
unrecognized-action `"end"` route with zero Seller invocations. -/
theorem claim_C7_cx : c7noSeller = true := rfl

/-- C7 (amended): a successful classification with `lead_score < 40` sets
`qualified = false` and `next_action = "nurture"`; since `_route_from_mcp`
does not recognize `"nurture"`, the decision node then routes to `END` —
no Seller invocation occurs (only the classifier parse-failure path sets
`next_action = "seller"`). -/
theorem claim_C7 (c : Classification) (s : SalesState)
    (hscore : c.lead_score.getD 0 < 40)
    (hlead : truthyOptStr c.lead_type = true)
    (hclosed : s.closed = false)
    (hoff : s.offers_made = [])
    (hesc : s.escalated = false) :
    (ProspectClassifier.process (some c) s).qualified = false ∧
    (ProspectClassifier.process (some c) s).next_action = some "nurture" ∧
    SalesOrchestrator.route_from_mcp
      (SalesOrchestrator.mcp_decision_node (ProspectClassifier.process (some c) s)) =
      .ended := by
  have hq : decide (c.lead_score.getD 0 ≥ 40) = false := by
    simp only [decide_eq_false_iff_not]
    omega
  have h1 : truthyOptStr (some "nurture") = true := by decide
  refine ⟨?_, ?_, ?_⟩ <;>
    simp [ProspectClassifier.process, SalesOrchestrator.mcp_decision_node,
      SalesOrchestrator.route_from_mcp, hq, hlead, hclosed, hoff, hesc, h1]

/-- Concrete cold classification for the C7 witness. -/
def c7wc : Classification := { lead_type := some "froid", lead_score := some 10 }

/-- Concrete pre-classification state for the C7 witness. -/
def c7ws : SalesState := create_initial_state "On regarde juste" "sess-c7w"

/-- Witness for the amended C7 at a concrete cold lead. -/
theorem claim_C7_witness :
    (ProspectClassifier.process (some c7wc) c7ws).qualified = false ∧
    (ProspectClassifier.process (some c7wc) c7ws).next_action = some "nurture" ∧
    SalesOrchestrator.route_from_mcp
      (SalesOrchestrator.mcp_decision_node (ProspectClassifier.process (some c7wc) c7ws)) =
      .ended :=
  claim_C7 c7wc c7ws (by decide) (by decide) (by decide) (by decide) (by decide)

/-- Initial state of the C8 counterexample run (initial prospect message
contains no conversion keyword). -/
def c8s0 : SalesState :=
  add_message (create_initial_state "hello there" "sess-c8") "user" "hello there"

/-- First (hot) classifier response of the C8 run. -/
def c8rHot : Classification :=
  { lead_type := some "chaud", lead_score := some 85, pain_points := some ["Shadow IA"] }

/-- Seller response of the C8 run. -/
def c8rSell : SellerResp :=
  { offre := some "DIAGNOSTIC", tarif := some 490, duree := some "45 min",
    contenu := some ["Audit des usages"], remise := some 0,
    prochaine_etape := some "appel découverte", engagement := some "ponctuel",
    conditions := some [], pitch := some "Voici notre proposition." }

/-- Supervisor response of the C8 run: re-route to the classifier. -/
def c8rSup : SupervisorResp :=
  { analysis := some "Requalifier le besoin", prospect_sentiment := some "neutre",
    goal_achieved := some false, next_agent := some "classifier",
    should_escalate := some false, should_close := some false }

/-- Second (cold) classifier response of the C8 run. -/
def c8rCold : Classification :=
  { lead_type := some "froid", lead_score := some 20 }

/-- The successive states of the C8 run, following exactly the dispatcher's
routing: decision, classifier, decision, seller, decision, supervisor,
decision. -/
def c8s1 : SalesState := SalesOrchestrator.mcp_decision_node c8s0

/-- State after the first (hot) classification. -/
def c8s2 : SalesState := ProspectClassifier.process (some c8rHot) c8s1

/-- Decision state routing to the seller. -/
def c8s3 : SalesState := SalesOrchestrator.mcp_decision_node c8s2

/-- State after the seller's offer. -/
def c8s4 : SalesState := SellerAgent.process (some c8rSell) "" c8s3

/-- Decision state routing to the supervisor. -/
def c8s5 : SalesState := SalesOrchestrator.mcp_decision_node c8s4

/-- State after the supervisor recommends re-classification. -/
def c8s6 : SalesState := SupervisorAgent.process (some c8rSup) c8s5

/-- Decision state routing back to the classifier. -/
def c8s7 : SalesState := SalesOrchestrator.mcp_decision_node c8s6

/-- Counterexample to C8 as stated: along a dispatcher-routed path (each
intermediate route shown), the state reaching the second classifier
invocation has `qualified = true`, and that invocation sets it back to
`false` — the `qualified` flag is not monotonic. -/
theorem claim_C8_cx :
    SalesOrchestrator.route_from_mcp c8s1 = .classifier ∧
    SalesOrchestrator.route_from_mcp c8s3 = .seller ∧
    SalesOrchestrator.route_from_mcp c8s5 = .supervisor ∧
    SalesOrchestrator.route_from_mcp c8s7 = .classifier ∧
    c8s7.qualified = true ∧
    (ProspectClassifier.process (some c8rCold) c8s7).qualified = false := by
  decide

/-- C8 (amended): the flags `converted`, `escalated`, `closed` and
`crm_synced` are monotonic under every operation (classifier, seller,
negotiator, supervisor, CRM, decision node); `qualified` is not — a
re-invoked classifier recomputes it from the new response. -/
theorem claim_C8 (o : AgentOp) (s s' : SalesState) (h : applyOp o s = some s') :
    (s.converted = true → s'.converted = true) ∧
    (s.escalated = true → s'.escalated = true) ∧
    (s.closed = true → s'.closed = true) ∧
    (s.crm_synced = true → s'.crm_synced = true) := by
  cases o with
  | classifierOp r =>
    simp only [applyOp, Option.some.injEq] at h
    subst h
    cases r with
    | none => simp [ProspectClassifier.process]
    | some c =>
      simp only [ProspectClassifier.process]
      split <;> simp
  | sellerOp r raw =>
    simp only [applyOp, Option.some.injEq] at h
    subst h
    cases r <;> simp [SellerAgent.process]
  | negotiatorOp raw =>
    simp only [applyOp, NegotiatorAgent.process] at h
    by_cases h3 : s.negotiation_count ≥ 3
    · rw [if_pos h3] at h
      simp only [Option.some.injEq] at h
      subst h
      simp
    · rw [if_neg h3] at h
      exact Option.noConfusion h
  | supervisorOp r =>
    simp only [applyOp, Option.some.injEq] at h
    subst h
    cases r with
    | none => simp [SupervisorAgent.process]
    | some a =>
      simp only [SupervisorAgent.process]
      repeat' split
      all_goals simp
  | crmOp =>
    simp only [applyOp, Option.some.injEq] at h
    subst h
    simp [CRMAgent.process]
  | mcpOp =>
    simp only [applyOp, Option.some.injEq] at h
    subst h
    unfold SalesOrchestrator.mcp_decision_node
    repeat' split
    all_goals simp

/-- Concrete state for the C8 witness: all four monotonic flags true,
pushed through the CRM operation. -/
def c8ws : SalesState :=
  { create_initial_state "C'est parfait, on y va" "sess-c8w" with
    lead_type := some "chaud", qualified := true, converted := true,
    escalated := true, crm_synced := false }

/-- Witness for the amended C8: the CRM operation preserves the four
monotonic flags on a concrete state. -/
theorem claim_C8_witness :
    (c8ws.converted = true → (CRMAgent.process c8ws).converted = true) ∧
    (c8ws.escalated = true → (CRMAgent.process c8ws).escalated = true) ∧
    (c8ws.closed = true → (CRMAgent.process c8ws).closed = true) ∧
    (c8ws.crm_synced = true → (CRMAgent.process c8ws).crm_synced = true) :=
  claim_C8 .crmOp c8ws (CRMAgent.process c8ws) rfl

/-- Hot classifier response of the C10 run. -/
def c10rCls : Classification :=
  { lead_type := some "chaud", lead_score := some 90,
    pain_points := some ["déploiement urgent"] }

/-- Seller response of the C10 run. -/
def c10rSell : SellerResp :=
  { offre := some "ACCOMPAGNEMENT_GLOBAL", tarif := some 2500, duree := some "3 mois",
    contenu := some ["Suivi régulier"], remise := some 0,
    prochaine_etape := some "proposition détaillée", engagement := some "trimestriel",
    conditions := some [], pitch := some "Voici une offre adaptée à votre urgence." }

/-- Script of the C10 run. -/
def c10sc : Script := { cls := [some c10rCls], sell := [(some c10rSell, "")] }

/-- The initial prospect message of the C10 run: it contains the conversion
keyword "yes" from the start. -/
def c10m : String := "Yes, I need 200 seats immediately, budget approved"

/-- Checker for the C10 run: one `run_conversation` call, no second
prospect message; the trace is classifier, seller, CRM; the final state is
converted, closed, synced, saved under its session id, and still carries
the unchanged initial `current_message`. -/
def c10firstRunConverts : Bool :=
  match SalesOrchestrator.run_conversation 6 c10sc {} c10m "sess-c10" with
  | .done f st tr =>
    f.converted && f.closed && f.crm_synced &&
      decide (InMemoryStore.load_session st "sess-c10" = some f) &&
      decide (tr = ["classifier", "seller", "crm"]) &&
      decide (f.current_message = c10m)
  | _ => false

set_option maxRecDepth 4000 in
/-- C10: no operation of a run ever rewrites `current_message`, so the
conversion check after the seller's offer still sees the initial prospect
message; concretely, a first run whose initial message contains "yes" goes
classifier, seller, conversion, CRM, ending converted and closed with no
second prospect message. -/
theorem claim_C10 :
    (∀ r s, (ProspectClassifier.process r s).current_message = s.current_message) ∧
    (∀ r raw s, (SellerAgent.process r raw s).current_message = s.current_message) ∧
    (∀ r s, (SupervisorAgent.process r s).current_message = s.current_message) ∧
    (∀ s, (CRMAgent.process s).current_message = s.current_message) ∧
    (∀ s, (SalesOrchestrator.mcp_decision_node s).current_message = s.current_message) ∧
    c10firstRunConverts = true := by
  refine ⟨?_, ?_, ?_, ?_, ?_, ?_⟩
  · intro r s
    cases r with
    | none => rfl
    | some c =>
      simp only [ProspectClassifier.process]
      split <;> rfl
  · intro r raw s
    cases r <;> rfl
  · intro r s
    cases r with
    | none => rfl
    | some a =>
      simp only [SupervisorAgent.process]
      repeat' split
      all_goals rfl
  · intro s
    rfl
  · intro s
    unfold SalesOrchestrator.mcp_decision_node
    repeat' split
    all_goals rfl
  · rfl
